import Mathlib

/-!
A shallow embedding of `src/pyKasa.py`, a command-line controller for TP-Link
Kasa smart devices, covering the selector handling of `main`
(lines 404-411), the `TpLinkKasaDevice` methods `turn_on`, `turn_off` and
`status` (lines 89-182), the dispatcher `runCommand` (lines 271-289), the
legacy helpers `turnOnDevice` / `turnOffDevice` (lines 292-311) and the
command list / command check of `main` (lines 26, 392).

Modelling conventions: the kasa collaborator's side effects (connecting,
power mutations, logger lines that report state or errors) are recorded as
an explicit event trace; Python's in-place mutation of the `children`
argument list is modelled by returning the list's final contents; an
exception raised while touching one child (out-of-range index, or a
collaborator fault given by a predicate `f`) is exactly what the per-child
`try`/`except` of the source catches.  Purely decorative log lines
(headers, debug lines, the alias strings inside a line) carry no state and
are elided from the trace.
-/

namespace PyKasa

/-- Decidable equality for `Except`, used to evaluate parse results on
concrete selector strings. -/
instance {ε α : Type} [DecidableEq ε] [DecidableEq α] : DecidableEq (Except ε α)
  | Except.ok x, Except.ok y =>
    if h : x = y then isTrue (by rw [h])
    else isFalse (by intro hc; injection hc; contradiction)
  | Except.ok _, Except.error _ => isFalse fun hc => Except.noConfusion hc
  | Except.error _, Except.ok _ => isFalse fun hc => Except.noConfusion hc
  | Except.error a, Except.error b =>
    if h : a = b then isTrue (by rw [h])
    else isFalse (by intro hc; injection hc; contradiction)

/-- One child outlet of a power strip (`current_child` in the source);
`is_on` mirrors the kasa library's live power-state attribute, and
`is_off` in the source is its negation. -/
structure Outlet where
  alias_ : String
  is_on : Bool
deriving DecidableEq

/-- The kasa `DeviceType` values relevant to the branching in the source. -/
inductive DeviceType
  | Plug
  | Bulb
  | Dimmer
  | Strip
  | StripSocket
deriving DecidableEq

/-- The fields of a connected kasa iot device that the source reads:
`alias`, `device_type`, the device-level power state, and `children`. -/
structure IotDevice where
  alias_ : String
  device_type : DeviceType
  is_on : Bool
  children : List Outlet
deriving DecidableEq

/-- `self.type in (current_device.device_type.Strip,
current_device.device_type.StripSocket)` — the multi-outlet test used at
lines 98, 131 and 164 of the source. -/
def isStripType (d : IotDevice) : Bool :=
  d.device_type == DeviceType.Strip || d.device_type == DeviceType.StripSocket

/-- Identity of the object a call or log line refers to: the whole device,
or the child at the (Python) index used to reach it. -/
inductive Target
  | device
  | child (idx : Int)
deriving DecidableEq

/-- One observable effect: opening the device connection
(`TpLinkKasaDevice.connect`, line 276), a power mutation on the kasa
object, or a logger line that carries state: `logState` for the
`State: ON/OFF` lines, `logAlready` for the `already on` / `already off`
lines of the legacy helpers, `logError` for the per-child `except`
handlers, `logCritical` for fatal messages. -/
inductive Event
  | connectDevice
  | mutateOn (t : Target)
  | mutateOff (t : Target)
  | logState (t : Target) (st : Bool)
  | logAlready (t : Target) (st : Bool)
  | logError (t : Target)
  | logCritical (msg : String)
deriving DecidableEq

/-- Python list-indexing semantics for `current_device.children[child]`:
a negative index counts from the end, and anything outside `[-len, len)`
raises `IndexError` (modelled as `none`). -/
def pyIdx (len : Nat) (i : Int) : Option Nat :=
  let j : Int := if i < 0 then (len : Int) + i else i
  if 0 ≤ j ∧ j < (len : Int) then some j.toNat else none

/-- Full match of the regex tail `(,[0-9])*`: alternating commas and single
digits, of even length. -/
def digitCommaTail : List Char → Bool
  | [] => true
  | [_] => false
  | c1 :: c2 :: rest => c1 == ',' && c2.isDigit && digitCommaTail rest

/-- Full match of the regex branch `[0-9](,[0-9])*` of line 404: one digit,
then comma-digit pairs.  Note the grammar admits single digits only. -/
def digitCommaList : List Char → Bool
  | [] => false
  | c :: rest => c.isDigit && digitCommaTail rest

/-- Two consecutive digit characters occur somewhere in the list — true of
any selector string that writes a multi-digit index such as `10`. -/
def hasAdjacentDigits : List Char → Bool
  | [] => false
  | [_] => false
  | c1 :: c2 :: rest => (c1.isDigit && c2.isDigit) || hasAdjacentDigits (c2 :: rest)

/-- The string starts with the three characters `all` — what
`re.match` makes of the unanchored alternative `^all` in the outer
selector regex of line 404 (a prefix test, not an exact match). -/
def startsWithAll (l : List Char) : Bool :=
  l.take 3 == ['a', 'l', 'l']

/-- `re.match(r"^all|([0-9](,[0-9])*)$", s)`: by precedence the pattern is
`(^all) | (([0-9](,[0-9])*)$)`, so it succeeds when `s` starts with `all`
or is entirely a single-digit comma list. -/
def outerSelectorMatch (s : String) : Bool :=
  startsWithAll s.toList || digitCommaList s.toList

/-- Python `s.split(",")` on the character list: always at least one token,
empty tokens preserved. -/
def splitOnComma : List Char → List (List Char)
  | [] => [[]]
  | c :: rest =>
    if c == ',' then [] :: splitOnComma rest
    else
      match splitOnComma rest with
      | [] => [[c]]
      | t :: ts => (c :: t) :: ts

/-- Python `int(token)` restricted to the token shapes reachable here:
optional surrounding whitespace, an optional sign, then a non-empty run of
decimal digits (PEP 515 underscore grouping is not modelled); anything
else raises `ValueError`, modelled as `none`. -/
def digitRunVal : List Char → Option Nat
  | [] => none
  | l =>
    if l.all Char.isDigit then
      some (l.foldl (fun a c => a * 10 + (c.toNat - 48)) 0)
    else none

/-- See `digitRunVal`: the sign and whitespace handling of `int`. -/
def pyIntChars (l : List Char) : Option Int :=
  let t := ((l.dropWhile Char.isWhitespace).reverse.dropWhile Char.isWhitespace).reverse
  match t with
  | '+' :: rest => (digitRunVal rest).map Int.ofNat
  | '-' :: rest => (digitRunVal rest).map fun n => -(Int.ofNat n)
  | _ => (digitRunVal t).map Int.ofNat

/-- `list(map(int, tokens))` of line 409: `int` is applied left to right
and the first failing token raises `ValueError` (the error payload is that
token). -/
def pyIntTokens : List (List Char) → Except String (List Int)
  | [] => Except.ok []
  | t :: rest =>
    match pyIntChars t with
    | none => Except.error t.asString
    | some n =>
      match pyIntTokens rest with
      | Except.error e => Except.error e
      | Except.ok ns => Except.ok (n :: ns)

/-- The selector handling of `main`, lines 404-411.  On an outer regex
match, exactly `"all"` yields the empty children list (the all-outlets
sentinel, line 406); any other matching string is split on commas and fed
to `int`, whose `ValueError` is uncaught (the `try` only starts at line
414).  When the outer regex fails, the children list is silently left
empty (line 411).  The dead assignment
`children = ",".join(args.children)` of line 408 is immediately
overwritten by line 409 and is not modelled. -/
def parseChildren (s : String) : Except String (List Int) :=
  if outerSelectorMatch s then
    if s = "all" then Except.ok []
    else pyIntTokens (splitOnComma s.toList)
  else Except.ok []

/-- Result of one `TpLinkKasaDevice` method call: the event trace, the
device state afterwards, and the final contents of the caller's `children`
list (Python passes the list by reference; the methods append to it). -/
structure MethodResult where
  events : List Event
  device : IotDevice
  children : List Int
deriving DecidableEq

/-- Lines 99-101 (also 132-134, 165-167): when the passed `children` list
is empty, the indices `0..N-1` are appended to it in ascending order. -/
def resolvedChildren (d : IotDevice) (children : List Int) : List Int :=
  if children.length = 0 then (List.range d.children.length).map Int.ofNat
  else children

/-- One iteration of the `for child in children` loop of `turn_on`
(lines 104-114): index into `children` (possibly raising `IndexError`), a
collaborator fault `f i` models the kasa calls raising at the state read,
otherwise the child is turned on only when it is off, and the new state is
logged.  Every exception is caught by the per-child handler and logged. -/
def turnOnChildStep (f : Int → Bool) (d : IotDevice) (i : Int) :
    List Event × IotDevice :=
  match pyIdx d.children.length i with
  | none => ([Event.logError (Target.child i)], d)
  | some j =>
    if f i then ([Event.logError (Target.child i)], d)
    else
      match d.children[j]? with
      | none => ([Event.logError (Target.child i)], d)
      | some c =>
        if c.is_on then ([], d)
        else
          ([Event.mutateOn (Target.child i), Event.logState (Target.child i) true],
           { d with children := d.children.set j { c with is_on := true } })

/-- One iteration of the `for child in children` loop of `turn_off`
(lines 137-147), symmetric to `turnOnChildStep`. -/
def turnOffChildStep (f : Int → Bool) (d : IotDevice) (i : Int) :
    List Event × IotDevice :=
  match pyIdx d.children.length i with
  | none => ([Event.logError (Target.child i)], d)
  | some j =>
    if f i then ([Event.logError (Target.child i)], d)
    else
      match d.children[j]? with
      | none => ([Event.logError (Target.child i)], d)
      | some c =>
        if c.is_on then
          ([Event.mutateOff (Target.child i), Event.logState (Target.child i) false],
           { d with children := d.children.set j { c with is_on := false } })
        else ([], d)

/-- One iteration of the `for child in children` loop of `status`
(lines 170-178): the child's state is read and logged, nothing is mutated;
exceptions are caught and logged per child. -/
def statusChildStep (f : Int → Bool) (d : IotDevice) (i : Int) : List Event :=
  match pyIdx d.children.length i with
  | none => [Event.logError (Target.child i)]
  | some j =>
    if f i then [Event.logError (Target.child i)]
    else
      match d.children[j]? with
      | none => [Event.logError (Target.child i)]
      | some c => [Event.logState (Target.child i) c.is_on]

/-- The `turn_on` child loop, threading the device state left to right. -/
def turnOnLoop (f : Int → Bool) (d : IotDevice) : List Int → List Event × IotDevice
  | [] => ([], d)
  | i :: rest =>
    ((turnOnChildStep f d i).1 ++ (turnOnLoop f (turnOnChildStep f d i).2 rest).1,
     (turnOnLoop f (turnOnChildStep f d i).2 rest).2)

/-- The `turn_off` child loop, threading the device state left to right. -/
def turnOffLoop (f : Int → Bool) (d : IotDevice) : List Int → List Event × IotDevice
  | [] => ([], d)
  | i :: rest =>
    ((turnOffChildStep f d i).1 ++ (turnOffLoop f (turnOffChildStep f d i).2 rest).1,
     (turnOffLoop f (turnOffChildStep f d i).2 rest).2)

/-- The `status` child loop: stateless, every child read against the same
device. -/
def statusLoop (f : Int → Bool) (d : IotDevice) (l : List Int) : List Event :=
  (l.map (statusChildStep f d)).flatten

/-- `TpLinkKasaDevice.turn_on`, lines 89-120.  Strip-type devices resolve
the children list and run the child loop; any other device is turned on
itself when off (and the new state logged), and nothing at all happens —
no mutation, no log line — when it is already on. -/
def TpLinkKasaDevice.turn_on (f : Int → Bool) (d : IotDevice)
    (children : List Int) : MethodResult :=
  if isStripType d then
    ⟨(turnOnLoop f d (resolvedChildren d children)).1,
     (turnOnLoop f d (resolvedChildren d children)).2,
     resolvedChildren d children⟩
  else if d.is_on then ⟨[], d, children⟩
  else
    ⟨[Event.mutateOn Target.device, Event.logState Target.device true],
     { d with is_on := true }, children⟩

/-- `TpLinkKasaDevice.turn_off`, lines 122-153, symmetric to `turn_on`. -/
def TpLinkKasaDevice.turn_off (f : Int → Bool) (d : IotDevice)
    (children : List Int) : MethodResult :=
  if isStripType d then
    ⟨(turnOffLoop f d (resolvedChildren d children)).1,
     (turnOffLoop f d (resolvedChildren d children)).2,
     resolvedChildren d children⟩
  else if d.is_on then
    ⟨[Event.mutateOff Target.device, Event.logState Target.device false],
     { d with is_on := false }, children⟩
  else ⟨[], d, children⟩

/-- `TpLinkKasaDevice.status`, lines 155-182: read-only; a non-strip
device logs its own state. -/
def TpLinkKasaDevice.status (f : Int → Bool) (d : IotDevice)
    (children : List Int) : MethodResult :=
  if isStripType d then
    ⟨statusLoop f d (resolvedChildren d children), d, resolvedChildren d children⟩
  else ⟨[Event.logState Target.device d.is_on], d, children⟩

/-- `runCommand`, lines 271-289: the device connection is opened FIRST
(line 276), then the command string is dispatched; any string other than
`on`, `off` or `status` — including `toggle`, which the CLI accepts —
falls through to the `Unknown or unsupported command` critical log. -/
def runCommand (f : Int → Bool) (d : IotDevice) (command : String)
    (children : List Int) : MethodResult :=
  if command = "on" then
    ⟨Event.connectDevice :: (TpLinkKasaDevice.turn_on f d children).events,
     (TpLinkKasaDevice.turn_on f d children).device,
     (TpLinkKasaDevice.turn_on f d children).children⟩
  else if command = "off" then
    ⟨Event.connectDevice :: (TpLinkKasaDevice.turn_off f d children).events,
     (TpLinkKasaDevice.turn_off f d children).device,
     (TpLinkKasaDevice.turn_off f d children).children⟩
  else if command = "status" then
    ⟨Event.connectDevice :: (TpLinkKasaDevice.status f d children).events,
     (TpLinkKasaDevice.status f d children).device,
     (TpLinkKasaDevice.status f d children).children⟩
  else
    ⟨[Event.connectDevice,
      Event.logCritical ("Unknown or unsupported command: " ++ command)],
     d, children⟩

/-- `command_options`, line 26: the strings accepted by the `--command`
argument and by `main`'s command check.  There is no hardware-info entry. -/
def command_options : List String := ["on", "off", "toggle", "status"]

/-- Terminal shape of one invocation of `main` (lines 381-429), assuming a
syntactically valid `--ip` (the IP regex of lines 394-402 is orthogonal to
every claim and elided): a command outside `command_options` logs
`Invalid command` and exits before any device contact (lines 427-429); a
`ValueError` from the selector handling escapes uncaught (the `try` of
line 414 has not started yet); otherwise `runCommand` runs against the
connected device. -/
inductive MainOutcome
  | invalidCommand
  | valueErrorCrash (tok : String)
  | ran (r : MethodResult)
deriving DecidableEq

/-- `main`, lines 381-429, specialised to a connectable device `d` and a
per-child fault predicate `f` for the kasa collaborator. -/
def pyMain (f : Int → Bool) (d : IotDevice) (command selector : String) :
    MainOutcome :=
  if command ∈ command_options then
    match parseChildren selector with
    | Except.error tok => MainOutcome.valueErrorCrash tok
    | Except.ok children => MainOutcome.ran (runCommand f d command children)
  else MainOutcome.invalidCommand

/-- The device-facing event trace of one invocation: empty when `main`
exits (or crashes) before reaching `runCommand`. -/
def mainTrace : MainOutcome → List Event
  | MainOutcome.invalidCommand => []
  | MainOutcome.valueErrorCrash _ => []
  | MainOutcome.ran r => r.events

/-- Legacy helper `turnOnDevice`, lines 303-311: unlike the class method,
it logs `already on` when no mutation is needed. -/
def turnOnDevice (dev : Outlet) : List Event × Outlet :=
  if dev.is_on then ([Event.logAlready Target.device true], dev)
  else ([Event.mutateOn Target.device], { dev with is_on := true })

/-- Legacy helper `turnOffDevice`, lines 292-300: logs `already off` when
no mutation is needed. -/
def turnOffDevice (dev : Outlet) : List Event × Outlet :=
  if dev.is_on then ([Event.mutateOff Target.device], { dev with is_on := false })
  else ([Event.logAlready Target.device false], dev)

/-- A collaborator that never faults. -/
def noFault : Int → Bool := fun _ => false

/-- A three-outlet power strip with states `[OFF, ON, OFF]`. -/
def sampleStrip : IotDevice :=
  { alias_ := "strip", device_type := DeviceType.Strip, is_on := false,
    children := [{ alias_ := "plug 0", is_on := false },
                 { alias_ := "plug 1", is_on := true },
                 { alias_ := "plug 2", is_on := false }] }

/-- A single-outlet plug that is currently on. -/
def samplePlug : IotDevice :=
  { alias_ := "plug", device_type := DeviceType.Plug, is_on := true,
    children := [] }

end PyKasa

namespace PyKasa

/-- A failing child access — out-of-range index or collaborator fault —
leaves the `turn_on` step with exactly one error log and an unchanged
device. -/
theorem turnOnChildStep_fail (f : Int → Bool) (d : IotDevice) (i : Int)
    (h : pyIdx d.children.length i = none ∨ f i = true) :
    turnOnChildStep f d i = ([Event.logError (Target.child i)], d) := by
  rcases h with h | h
  · simp [turnOnChildStep, h]
  · unfold turnOnChildStep
    cases pyIdx d.children.length i with
    | none => rfl
    | some j => simp [h]

/-- A failing child access leaves the `status` step with exactly one error
log. -/
theorem statusChildStep_fail (f : Int → Bool) (d : IotDevice) (i : Int)
    (h : pyIdx d.children.length i = none ∨ f i = true) :
    statusChildStep f d i = [Event.logError (Target.child i)] := by
  rcases h with h | h
  · simp [statusChildStep, h]
  · unfold statusChildStep
    cases pyIdx d.children.length i with
    | none => rfl
    | some j => simp [h]

/-- One `turn_on` step changes neither the number of children nor the
device type. -/
theorem turnOnChildStep_frame (f : Int → Bool) (d : IotDevice) (i : Int) :
    (turnOnChildStep f d i).2.children.length = d.children.length ∧
    (turnOnChildStep f d i).2.device_type = d.device_type := by
  unfold turnOnChildStep
  cases hp : pyIdx d.children.length i with
  | none => exact ⟨rfl, rfl⟩
  | some j =>
    cases hf : f i with
    | true => simp
    | false =>
      cases hc : d.children[j]? with
      | none => simp [hc]
      | some c =>
        cases hon : c.is_on with
        | true => simp [hc, hon]
        | false => simp [hc, hon]

/-- The whole `turn_on` loop changes neither the number of children nor
the device type. -/
theorem turnOnLoop_frame (f : Int → Bool) (l : List Int) : ∀ d : IotDevice,
    (turnOnLoop f d l).2.children.length = d.children.length ∧
    (turnOnLoop f d l).2.device_type = d.device_type := by
  induction l with
  | nil => intro d; exact ⟨rfl, rfl⟩
  | cons i rest ih =>
    intro d
    have h1 := turnOnChildStep_frame f d i
    have h2 := ih (turnOnChildStep f d i).2
    simp only [turnOnLoop]
    exact ⟨h2.1.trans h1.1, h2.2.trans h1.2⟩

/-- The `turn_on` loop over a concatenation: the second half runs from the
device state the first half left behind. -/
theorem turnOnLoop_append (f : Int → Bool) (xs ys : List Int) :
    ∀ d : IotDevice,
    turnOnLoop f d (xs ++ ys)
      = ((turnOnLoop f d xs).1 ++ (turnOnLoop f (turnOnLoop f d xs).2 ys).1,
         (turnOnLoop f (turnOnLoop f d xs).2 ys).2) := by
  induction xs with
  | nil => intro d; simp [turnOnLoop]
  | cons x xs ih =>
    intro d
    simp only [List.cons_append, turnOnLoop, List.append_eq,
      ih (turnOnChildStep f d x).2, List.append_assoc]

/-- The `status` loop over a concatenation splits, since it never mutates
the device. -/
theorem statusLoop_append (f : Int → Bool) (d : IotDevice) (xs ys : List Int) :
    statusLoop f d (xs ++ ys) = statusLoop f d xs ++ statusLoop f d ys := by
  simp [statusLoop]

/-- A character list accepted by the regex tail `(,[0-9])*` has no two
adjacent digits and starts (if at all) with a comma, hence a non-digit. -/
theorem digitCommaTail_props : ∀ l : List Char, digitCommaTail l = true →
    hasAdjacentDigits l = false ∧ ∀ c rest, l = c :: rest → c.isDigit = false
  | [], _ => ⟨rfl, fun c rest h => nomatch h⟩
  | [c], h => by simp [digitCommaTail] at h
  | c1 :: c2 :: rest, h => by
    simp only [digitCommaTail, Bool.and_eq_true, beq_iff_eq] at h
    obtain ⟨⟨hc1, hc2⟩, hrest⟩ := h
    have IH := digitCommaTail_props rest hrest
    subst hc1
    constructor
    · rw [hasAdjacentDigits]
      have hcomma : (',' : Char).isDigit = false := by decide
      rw [hcomma]
      simp only [Bool.false_and, Bool.false_or]
      cases rest with
      | nil => rfl
      | cons c3 rest3 =>
        rw [hasAdjacentDigits]
        rw [IH.2 c3 rest3 rfl]
        rw [IH.1]
        simp
    · intro c r hcr
      injection hcr with h1 _
      rw [← h1]
      decide

/-- A character list with two adjacent digits — in particular any selector
writing an index of two or more digits — is rejected by the
`[0-9](,[0-9])*` branch of the selector regex. -/
theorem digitCommaList_no_adj (l : List Char) (hl : digitCommaList l = true) :
    hasAdjacentDigits l = false := by
  cases l with
  | nil => rfl
  | cons c rest =>
    simp only [digitCommaList, Bool.and_eq_true] at hl
    have IH := digitCommaTail_props rest hl.2
    cases rest with
    | nil => rfl
    | cons c2 rest2 =>
      rw [hasAdjacentDigits]
      rw [IH.2 c2 rest2 rfl]
      simp only [Bool.and_false, Bool.false_or]
      exact IH.1

end PyKasa

namespace PyKasa

/-- Every branch of `runCommand` opens the device connection: the
`connect` of line 276 precedes the command dispatch. -/
theorem runCommand_connects (f : Int → Bool) (d : IotDevice) (command : String)
    (children : List Int) :
    Event.connectDevice ∈ (runCommand f d command children).events := by
  unfold runCommand
  by_cases h1 : command = "on"
  · simp [h1]
  · by_cases h2 : command = "off"
    · simp [h1, h2]
    · by_cases h3 : command = "status"
      · simp [h1, h2, h3]
      · simp [h1, h2, h3]

/-- Claim C1: for a multi-outlet (strip-type) device with outlet count N,
the selector "all" parses to the empty-children sentinel, and command
execution targets exactly N outlets, visiting them as the resolved list
`[0, 1, ..., N-1]` in ascending index order. -/
theorem claim1_all_selector_targets (f : Int → Bool) (d : IotDevice)
    (h : isStripType d = true) :
    parseChildren "all" = Except.ok [] ∧
    (TpLinkKasaDevice.turn_on f d []).children
      = (List.range d.children.length).map Int.ofNat ∧
    (TpLinkKasaDevice.turn_on f d []).children.length = d.children.length ∧
    (TpLinkKasaDevice.turn_on f d []).events
      = (turnOnLoop f d ((List.range d.children.length).map Int.ofNat)).1 := by
  have hres : resolvedChildren d []
      = (List.range d.children.length).map Int.ofNat := by
    simp [resolvedChildren]
  refine ⟨by decide, ?_, ?_, ?_⟩ <;>
    simp [TpLinkKasaDevice.turn_on, h, hres]

/-- Witness for claim C1 at the three-outlet sample strip. -/
theorem claim1_witness :
    isStripType sampleStrip = true ∧
    (TpLinkKasaDevice.turn_on noFault sampleStrip []).children
      = (List.range sampleStrip.children.length).map Int.ofNat :=
  ⟨by decide, (claim1_all_selector_targets noFault sampleStrip (by decide)).2.1⟩

/-- Counterexample to claim C2 as stated: parsing "0,2,2,1" yields the
integers in input order with the duplicate kept, `[0, 2, 2, 1]` — not the
sorted, deduplicated `[0, 1, 2]` the claim requires. -/
theorem claim2_counterexample :
    parseChildren "0,2,2,1" = Except.ok [0, 2, 2, 1] ∧
    ([0, 2, 2, 1] : List Int) ≠ [0, 1, 2] :=
  ⟨by decide, by decide⟩

/-- Claim C2 as amended: parsing a comma-separated digit list keeps the
indices in input order, duplicates included — parse("0,2,2,1") is
`[0, 2, 2, 1]` — and command execution visits explicit-selector targets in
exactly that input order. -/
theorem claim2_explicit_input_order (f : Int → Bool) (d : IotDevice)
    (h : isStripType d = true) :
    parseChildren "0,2,2,1" = Except.ok [0, 2, 2, 1] ∧
    (TpLinkKasaDevice.turn_on f d [0, 2, 2, 1]).children = [0, 2, 2, 1] ∧
    (TpLinkKasaDevice.turn_on f d [0, 2, 2, 1]).events
      = (turnOnLoop f d [0, 2, 2, 1]).1 := by
  refine ⟨by decide, ?_, ?_⟩ <;>
    simp [TpLinkKasaDevice.turn_on, h, resolvedChildren]

/-- Witness for claim C2 (amended) at the three-outlet sample strip. -/
theorem claim2_witness :
    isStripType sampleStrip = true ∧
    (TpLinkKasaDevice.turn_on noFault sampleStrip [0, 2, 2, 1]).children
      = [0, 2, 2, 1] :=
  ⟨by decide, (claim2_explicit_input_order noFault sampleStrip (by decide)).2.1⟩

/-- Counterexample to claim C3 as stated: the malformed selector "abc"
does not fail with any selector error — it parses to the empty children
list (the all-outlets sentinel) and the invocation goes on to contact the
device. -/
theorem claim3_counterexample :
    parseChildren "abc" = Except.ok [] ∧
    Event.connectDevice ∈ mainTrace (pyMain noFault samplePlug "status" "abc") :=
  ⟨by decide, by decide⟩

/-- Claim C3 as amended: a selector string that neither starts with "all"
nor fully matches the single-digit comma-list grammar (e.g. "abc", "-1",
the empty string) is silently mapped to the empty children list — the
all-outlets sentinel — and execution proceeds to device contact; no fatal
InvalidSelector error exists.  (A string that starts with "all" without
being exactly "all" instead crashes with an uncaught ValueError.) -/
theorem claim3_malformed_treated_as_all (f : Int → Bool) (d : IotDevice)
    (s : String) (h1 : startsWithAll s.toList = false)
    (h2 : digitCommaList s.toList = false) :
    parseChildren s = Except.ok [] ∧
    Event.connectDevice ∈ mainTrace (pyMain f d "status" s) := by
  have houter : outerSelectorMatch s = false := by
    unfold outerSelectorMatch
    rw [h1, h2]
    rfl
  have hparse : parseChildren s = Except.ok [] := by
    simp [parseChildren, houter]
  refine ⟨hparse, ?_⟩
  have hin : "status" ∈ command_options := by decide
  unfold pyMain
  rw [if_pos hin, hparse]
  simpa [mainTrace] using runCommand_connects f d "status" []

/-- Witness for claim C3 (amended) at the selector "-1". -/
theorem claim3_witness :
    (startsWithAll ("-1").toList = false ∧
      digitCommaList ("-1").toList = false) ∧
    (parseChildren "-1" = Except.ok [] ∧
      Event.connectDevice ∈ mainTrace (pyMain noFault samplePlug "status" "-1")) :=
  ⟨⟨by decide, by decide⟩,
   claim3_malformed_treated_as_all noFault samplePlug "-1" (by decide) (by decide)⟩

end PyKasa

namespace PyKasa

/-- Counterexample to claim C4 as stated: in the command path actually
used (`TpLinkKasaDevice.turn_on` / `turn_off`), power-on on a target that
is already ON (child 1 of the sample strip; the already-on sample plug)
emits NOTHING — no mutate call, but also no `already-on` annotation — and
power-off on the already-OFF child 0 likewise emits nothing. -/
theorem claim4_counterexample :
    (TpLinkKasaDevice.turn_on noFault sampleStrip [1]).events = [] ∧
    (TpLinkKasaDevice.turn_off noFault sampleStrip [0]).events = [] ∧
    (TpLinkKasaDevice.turn_on noFault samplePlug []).events = [] :=
  ⟨by decide, by decide, by decide⟩

/-- Claim C4 as amended: per target, power-on on an already-ON target
issues no mutate call and emits no annotation at all, while power-on on an
OFF target issues exactly one mutate-on call and logs the new ON state;
symmetrically for power-off.  Only the legacy `turnOnDevice` /
`turnOffDevice` helpers emit the `already on` / `already off`
annotations (still with no mutate call). -/
theorem claim4_idempotent_mutation (f : Int → Bool) (d : IotDevice) (i : Int)
    (j : Nat) (c : Outlet) (hj : pyIdx d.children.length i = some j)
    (hc : d.children[j]? = some c) (hf : f i = false) :
    (c.is_on = true → turnOnChildStep f d i = ([], d)) ∧
    (c.is_on = false →
      (turnOnChildStep f d i).1
        = [Event.mutateOn (Target.child i), Event.logState (Target.child i) true]) ∧
    (c.is_on = false → turnOffChildStep f d i = ([], d)) ∧
    (c.is_on = true →
      (turnOffChildStep f d i).1
        = [Event.mutateOff (Target.child i), Event.logState (Target.child i) false]) ∧
    (∀ o : Outlet, o.is_on = true →
      turnOnDevice o = ([Event.logAlready Target.device true], o)) ∧
    (∀ o : Outlet, o.is_on = false →
      turnOnDevice o = ([Event.mutateOn Target.device], { o with is_on := true })) ∧
    (∀ o : Outlet, o.is_on = false →
      turnOffDevice o = ([Event.logAlready Target.device false], o)) ∧
    (∀ o : Outlet, o.is_on = true →
      turnOffDevice o = ([Event.mutateOff Target.device], { o with is_on := false })) := by
  refine ⟨?_, ?_, ?_, ?_, ?_, ?_, ?_, ?_⟩
  · intro hon; simp [turnOnChildStep, hj, hc, hf, hon]
  · intro hon; simp [turnOnChildStep, hj, hc, hf, hon]
  · intro hon; simp [turnOffChildStep, hj, hc, hf, hon]
  · intro hon; simp [turnOffChildStep, hj, hc, hf, hon]
  · intro o ho; simp [turnOnDevice, ho]
  · intro o ho; simp [turnOnDevice, ho]
  · intro o ho; simp [turnOffDevice, ho]
  · intro o ho; simp [turnOffDevice, ho]

/-- Witness for claim C4 (amended): child 0 of the sample strip is OFF, so
power-on issues exactly one mutate-on call followed by the ON state log. -/
theorem claim4_witness :
    (pyIdx sampleStrip.children.length 0 = some 0 ∧
      sampleStrip.children[0]? = some { alias_ := "plug 0", is_on := false } ∧
      noFault 0 = false) ∧
    (turnOnChildStep noFault sampleStrip 0).1
      = [Event.mutateOn (Target.child 0), Event.logState (Target.child 0) true] :=
  ⟨⟨by decide, by decide, rfl⟩,
   (claim4_idempotent_mutation noFault sampleStrip 0 0
      { alias_ := "plug 0", is_on := false } (by decide) (by decide) rfl).2.1 rfl⟩

/-- Claim C5: a failing target — an out-of-range child index or a
collaborator fault — contributes exactly one per-target error event and
does not abort the loop: the events of the preceding and following
siblings, and the final device state, are exactly those of the run with
the failing target removed; likewise for the read-only status loop. -/
theorem claim5_partial_failure (f : Int → Bool) (d : IotDevice) (i : Int)
    (pre post : List Int)
    (hfail : pyIdx d.children.length i = none ∨ f i = true) :
    (turnOnLoop f d (pre ++ i :: post)).1
      = (turnOnLoop f d pre).1
        ++ Event.logError (Target.child i)
          :: (turnOnLoop f (turnOnLoop f d pre).2 post).1 ∧
    (turnOnLoop f d (pre ++ i :: post)).2 = (turnOnLoop f d (pre ++ post)).2 ∧
    (turnOnLoop f d (pre ++ post)).1
      = (turnOnLoop f d pre).1 ++ (turnOnLoop f (turnOnLoop f d pre).2 post).1 ∧
    statusLoop f d (pre ++ i :: post)
      = statusLoop f d pre
        ++ Event.logError (Target.child i) :: statusLoop f d post := by
  have hlen := (turnOnLoop_frame f pre d).1
  have hstep : turnOnChildStep f (turnOnLoop f d pre).2 i
      = ([Event.logError (Target.child i)], (turnOnLoop f d pre).2) := by
    apply turnOnChildStep_fail
    rcases hfail with h | h
    · left; rw [hlen]; exact h
    · right; exact h
  have hstat : statusChildStep f d i = [Event.logError (Target.child i)] :=
    statusChildStep_fail f d i hfail
  refine ⟨?_, ?_, ?_, ?_⟩
  · rw [turnOnLoop_append f pre (i :: post) d]
    simp only [turnOnLoop, hstep]
    simp
  · rw [turnOnLoop_append f pre (i :: post) d, turnOnLoop_append f pre post d]
    simp only [turnOnLoop, hstep]
  · rw [turnOnLoop_append f pre post d]
  · simp [statusLoop, hstat]

/-- Witness for claim C5: index 7 is out of range on the three-outlet
sample strip, placed between in-range siblings 0 and 1, 2. -/
theorem claim5_witness :
    (pyIdx sampleStrip.children.length 7 = none ∨ noFault 7 = true) ∧
    (turnOnLoop noFault sampleStrip ([0] ++ 7 :: [1, 2])).1
      = (turnOnLoop noFault sampleStrip [0]).1
        ++ Event.logError (Target.child 7)
          :: (turnOnLoop noFault (turnOnLoop noFault sampleStrip [0]).2 [1, 2]).1 :=
  ⟨Or.inl (by decide),
   (claim5_partial_failure noFault sampleStrip 7 [0] [1, 2] (Or.inl (by decide))).1⟩

end PyKasa

namespace PyKasa

/-- Counterexample to claim C6 as stated: no hardware-info command exists —
neither "hw-info" nor "hardware-info" is in `command_options`, and an
invocation with "hw-info" is rejected as an invalid command. -/
theorem claim6_counterexample :
    ¬ ("hw-info" ∈ command_options) ∧ ¬ ("hardware-info" ∈ command_options) ∧
    pyMain noFault sampleStrip "hw-info" "all" = MainOutcome.invalidCommand :=
  ⟨by decide, by decide, by decide⟩

/-- Claim C6 as amended: the hardware-info command is NOT supported —
"hw-info" is outside `command_options`, so `main` exits with an invalid
command before contacting the device and nothing at all is executed per
outlet (the only hardware-info read in the source is a debug log inside
the never-called legacy `runCommand_OLD`). -/
theorem claim6_hw_info_unsupported (f : Int → Bool) (d : IotDevice)
    (s : String) :
    pyMain f d "hw-info" s = MainOutcome.invalidCommand ∧
    mainTrace (pyMain f d "hw-info" s) = [] := by
  have h : ¬ ("hw-info" ∈ command_options) := by decide
  constructor
  · unfold pyMain; rw [if_neg h]
  · unfold pyMain; rw [if_neg h]; rfl

/-- Counterexample to claim C7 as stated: "toggle" is accepted by the
command check of `main` yet unsupported by `runCommand`, so its
unknown-command error is logged only AFTER the device connection has been
opened — device contact does happen for an unsupported command. -/
theorem claim7_counterexample :
    "toggle" ∈ command_options ∧
    mainTrace (pyMain noFault samplePlug "toggle" "all")
      = [Event.connectDevice,
         Event.logCritical "Unknown or unsupported command: toggle"] :=
  ⟨by decide, by decide⟩

/-- Claim C7 as amended: a command string outside `command_options`
(on, off, toggle, status) makes `main` exit with an invalid-command error
before any device contact; but "toggle", although inside that set, is
unsupported by `runCommand` and triggers the unknown-command error only
after the connection is opened. -/
theorem claim7_unknown_command (f : Int → Bool) (d : IotDevice)
    (c s : String) (h : c ∉ command_options) :
    pyMain f d c s = MainOutcome.invalidCommand ∧
    mainTrace (pyMain f d c s) = [] := by
  constructor
  · unfold pyMain; rw [if_neg h]
  · unfold pyMain; rw [if_neg h]; rfl

/-- Witness for claim C7 (amended) at the command "frobnicate". -/
theorem claim7_witness :
    ("frobnicate" ∉ command_options) ∧
    pyMain noFault samplePlug "frobnicate" "all" = MainOutcome.invalidCommand :=
  ⟨by decide,
   (claim7_unknown_command noFault samplePlug "frobnicate" "all" (by decide)).1⟩

/-- Claim C8: on a single-outlet (non-strip) device every selector yields
the device itself as the only target — the trace holds only device-target
events, no child event and no error, and is the same for every children
list. -/
theorem claim8_simple_device (f : Int → Bool) (d : IotDevice)
    (children : List Int) (h : isStripType d = false) :
    (TpLinkKasaDevice.turn_on f d children).events
      = (if d.is_on then []
         else [Event.mutateOn Target.device, Event.logState Target.device true]) ∧
    (TpLinkKasaDevice.turn_off f d children).events
      = (if d.is_on
         then [Event.mutateOff Target.device, Event.logState Target.device false]
         else []) ∧
    (TpLinkKasaDevice.status f d children).events
      = [Event.logState Target.device d.is_on] ∧
    (TpLinkKasaDevice.turn_on f d children).events
      = (TpLinkKasaDevice.turn_on f d []).events := by
  by_cases hon : d.is_on = true <;>
    simp [TpLinkKasaDevice.turn_on, TpLinkKasaDevice.turn_off,
      TpLinkKasaDevice.status, h, hon]

/-- Witness for claim C8: the sample plug with the irrelevant selector
list [0, 5]. -/
theorem claim8_witness :
    isStripType samplePlug = false ∧
    (TpLinkKasaDevice.status noFault samplePlug [0, 5]).events
      = [Event.logState Target.device samplePlug.is_on] :=
  ⟨by decide, (claim8_simple_device noFault samplePlug [0, 5] (by decide)).2.2.1⟩

/-- Claim C9: calling `turn_on`, `turn_off` or `status` on a strip-type
device with the empty children list mutates the caller's list in place to
`[0..N-1]` (it does not stay empty), and a subsequent call sharing that
now non-empty list no longer sees it as empty and leaves it unchanged. -/
theorem claim9_children_mutated (f g : Int → Bool) (d : IotDevice)
    (h : isStripType d = true) (hN : 0 < d.children.length) :
    (TpLinkKasaDevice.turn_on f d []).children
      = (List.range d.children.length).map Int.ofNat ∧
    (TpLinkKasaDevice.turn_off f d []).children
      = (List.range d.children.length).map Int.ofNat ∧
    (TpLinkKasaDevice.status f d []).children
      = (List.range d.children.length).map Int.ofNat ∧
    (TpLinkKasaDevice.turn_on f d []).children ≠ [] ∧
    (TpLinkKasaDevice.status g (TpLinkKasaDevice.turn_on f d []).device
        (TpLinkKasaDevice.turn_on f d []).children).children
      = (TpLinkKasaDevice.turn_on f d []).children := by
  have hres : resolvedChildren d []
      = (List.range d.children.length).map Int.ofNat := by
    simp [resolvedChildren]
  have hon : (TpLinkKasaDevice.turn_on f d []).children
      = (List.range d.children.length).map Int.ofNat := by
    simp [TpLinkKasaDevice.turn_on, h, hres]
  have hne : (List.range d.children.length).map Int.ofNat ≠ [] := by
    intro hcontr
    have hlen : ((List.range d.children.length).map Int.ofNat).length = 0 := by
      rw [hcontr]; rfl
    rw [List.length_map, List.length_range] at hlen
    omega
  have hdev : (TpLinkKasaDevice.turn_on f d []).device
      = (turnOnLoop f d ((List.range d.children.length).map Int.ofNat)).2 := by
    simp [TpLinkKasaDevice.turn_on, h, hres]
  have hstrip2 : isStripType (TpLinkKasaDevice.turn_on f d []).device = true := by
    rw [hdev]
    unfold isStripType
    rw [(turnOnLoop_frame f _ d).2]
    unfold isStripType at h
    exact h
  have hlenNe : d.children.length ≠ 0 := Nat.pos_iff_ne_zero.mp hN
  refine ⟨hon, ?_, ?_, ?_, ?_⟩
  · simp [TpLinkKasaDevice.turn_off, h, hres]
  · simp [TpLinkKasaDevice.status, h, hres]
  · rw [hon]; exact hne
  · rw [hon]
    simp [TpLinkKasaDevice.status, hstrip2, resolvedChildren, hlenNe]

/-- Witness for claim C9 at the three-outlet sample strip. -/
theorem claim9_witness :
    (isStripType sampleStrip = true ∧ 0 < sampleStrip.children.length) ∧
    (TpLinkKasaDevice.turn_on noFault sampleStrip []).children
      = (List.range sampleStrip.children.length).map Int.ofNat :=
  ⟨⟨by decide, by decide⟩,
   (claim9_children_mutated noFault noFault sampleStrip (by decide) (by decide)).1⟩

/-- Claim C10: "allfoo" passes the outer selector regex (a prefix match on
"all") yet reaches the `int()` conversion of the raw string and crashes
with an uncaught ValueError; and any selector with two adjacent digit
characters — i.e. any multi-digit index such as 10 — fails the digit-list
grammar, so unless it starts with "all" it is silently parsed as the
all-outlets sentinel. -/
theorem claim10_selector_quirks (s : String)
    (h1 : startsWithAll s.toList = false)
    (h2 : hasAdjacentDigits s.toList = true) :
    outerSelectorMatch "allfoo" = true ∧
    parseChildren "allfoo" = Except.error "allfoo" ∧
    pyMain noFault sampleStrip "on" "allfoo"
      = MainOutcome.valueErrorCrash "allfoo" ∧
    digitCommaList s.toList = false ∧
    parseChildren s = Except.ok [] := by
  have hdcl : digitCommaList s.toList = false := by
    cases hd : digitCommaList s.toList with
    | false => rfl
    | true => rw [digitCommaList_no_adj s.toList hd] at h2; simp at h2
  have houter : outerSelectorMatch s = false := by
    unfold outerSelectorMatch
    rw [h1, hdcl]
    rfl
  refine ⟨by decide, by decide, by decide, hdcl, ?_⟩
  simp [parseChildren, houter]

/-- Witness for claim C10 at the selector "0,10". -/
theorem claim10_witness :
    (startsWithAll ("0,10").toList = false ∧
      hasAdjacentDigits ("0,10").toList = true) ∧
    (parseChildren "allfoo" = Except.error "allfoo" ∧
      parseChildren "0,10" = Except.ok []) :=
  ⟨⟨by decide, by decide⟩,
   ⟨(claim10_selector_quirks "0,10" (by decide) (by decide)).2.1,
    (claim10_selector_quirks "0,10" (by decide) (by decide)).2.2.2.2⟩⟩

end PyKasa
